import Mathlib

/-!
Shallow embedding of `static_class_property/__init__.py`: the descriptor
classes `GetOnlyProperty` and `classproperty`, the enforcing metaclass
`MetaClassContainingClassProperties`, and the slice of the host language's
attribute-access protocol they rely on (class and instance attribute
lookup along the method-resolution order, data-descriptor dispatch,
class-level and instance-level assignment and deletion).

Classes live in a heap (`World`, a list of class objects indexed by
position); a class object carries its own attribute dictionary, the
method-resolution order computed at creation (its own id first, then the
bases' linearizations — for the single-inheritance hierarchies exercised
here this coincides with the host language's C3 linearization), and a flag
recording whether the enforcing metaclass governs it.  Computation
functions wrapped by the descriptors are embedded syntactically (`FGet`):
a constant, or the prefix-plus-class-variable shape used throughout the
repository's tests, evaluated against whichever class object is passed at
access time.
-/

namespace StaticClassProperty

/-- A computation function wrapped by a descriptor: the function receives a
class object and produces a value.  `constF s` ignores its argument;
`concatVar p a` returns `p ++ cls.a` (reading the plain string attribute
`a` off the received class, as the repository's tests do); `raiseNotImpl`
raises, as the abstract-property test's body does. -/
inductive FGet where
  | constF : String → FGet
  | concatVar : String → String → FGet
  | raiseNotImpl : FGet
deriving DecidableEq, Repr

/-- A value bound in a class or instance dictionary: a plain string value,
the protected-name registry set (`_cantchange`), a `classproperty`
descriptor, or a bare `GetOnlyProperty` descriptor.  The descriptors carry
their optional computation function (`fget`) and the `_name` bound by
`__set_name__`. -/
inductive Attr where
  | plain : String → Attr
  | nameset : List String → Attr
  | cprop : Option FGet → String → Attr
  | getonly : Option FGet → String → Attr
deriving DecidableEq, Repr

/-- A class object: its bases (heap ids), its method-resolution order
(computed at creation, own id first), its own attribute dictionary
(`__dict__`), and whether `MetaClassContainingClassProperties` is its
metaclass. -/
structure ClassObj where
  bases : List Nat
  mro : List Nat
  dict : List (String × Attr)
  meta : Bool
deriving DecidableEq, Repr

/-- The heap of class objects; a class id is a position in the list. -/
abbrev World := List ClassObj

/-- An instance: the id of its runtime class and its own dictionary. -/
structure PyInstance where
  cls : Nat
  idict : List (String × Attr)
deriving DecidableEq, Repr

/-- The error kinds the embedded code can raise. -/
inductive PyErr where
  | attributeError : String → PyErr
  | valueError : String → PyErr
  | typeError : String → PyErr
  | notImplementedError : PyErr
deriving DecidableEq, Repr

/-- A value produced by an attribute read: a string, a name set, or a
descriptor object returned raw (as `GetOnlyProperty.__get__` does when
accessed on the class). -/
inductive Val where
  | str : String → Val
  | names : List String → Val
  | descr : Attr → Val
deriving DecidableEq, Repr

/-- The single-quote character, used in the source's error messages. -/
def sq : String := String.singleton (Char.ofNat 39)

/-- Message of `GetOnlyProperty.__set__`. -/
def cantSetMsg (n : String) : String :=
  "can" ++ sq ++ "t set attribute " ++ sq ++ n ++ sq

/-- Message of `GetOnlyProperty.__delete__`. -/
def cantDelMsg (n : String) : String :=
  "can" ++ sq ++ "t delete attribute " ++ sq ++ n ++ sq

/-- Message of `GetOnlyProperty.__get__` when no getter is bound. -/
def noGetterMsg (n : String) : String :=
  "property " ++ sq ++ n ++ sq ++ " has no getter"

/-- Message of `MetaClassContainingClassProperties.__setattr__`. -/
def cannotSetMsg (n : String) : String := "Cannot set " ++ n

/-- Message of the host language when a `None` function is called, which is
what happens when `classproperty.__get__` wraps an absent getter in
`classmethod` and calls it. -/
def noneNotCallableMsg : String :=
  sq ++ "NoneType" ++ sq ++ " object is not callable"

/-- Dictionary lookup (first binding of the key). -/
def dictGet (d : List (String × Attr)) (k : String) : Option Attr :=
  match d with
  | [] => none
  | (k2, v2) :: rest => if k2 = k then some v2 else dictGet rest k

/-- Dictionary update: overwrite the key's binding or append it. -/
def dictSet (d : List (String × Attr)) (k : String) (v : Attr) :
    List (String × Attr) :=
  match d with
  | [] => [(k, v)]
  | (k2, v2) :: rest =>
      if k2 = k then (k, v) :: rest else (k2, v2) :: dictSet rest k v

/-- Dictionary deletion of the first binding of the key. -/
def dictDel (d : List (String × Attr)) (k : String) : List (String × Attr) :=
  match d with
  | [] => []
  | (k2, v2) :: rest => if k2 = k then rest else (k2, v2) :: dictDel rest k

/-- The class object a heap id denotes, if any. -/
def findClass (w : World) (cid : Nat) : Option ClassObj := w[cid]?

/-- Attribute lookup along a class's stored method-resolution order: the
first dictionary along the MRO that binds the name wins (the host
language's `type.__getattribute__` search, descriptor invocation being
handled by the callers below). -/
def lookupAttr (w : World) (cid : Nat) (attr : String) : Option Attr :=
  match findClass w cid with
  | none => none
  | some c =>
      c.mro.findSome? fun b =>
        match findClass w b with
        | none => none
        | some cb => dictGet cb.dict attr

/-- Plain-attribute read used by the embedded computation functions: the
MRO lookup restricted to plain string values (the tests' getters read the
plain class variable `class_variable`). -/
def getPlainAttr (w : World) (cid : Nat) (attr : String) : Except PyErr String :=
  match lookupAttr w cid attr with
  | some (.plain s) => .ok s
  | some _ => .error (.typeError "unsupported operand")
  | none => .error (.attributeError attr)

/-- Evaluation of a computation function with a class object as its
argument (the `cls` parameter of the wrapped function). -/
def evalFGet (w : World) (f : FGet) (cid : Nat) : Except PyErr Val :=
  match f with
  | .constF s => .ok (.str s)
  | .concatVar p a =>
      match getPlainAttr w cid a with
      | .ok s => .ok (.str (p ++ s))
      | .error e => .error e
  | .raiseNotImpl => .error .notImplementedError

/-- Evaluation of a computation function with an instance as its argument
(`GetOnlyProperty.__get__` calls `self.fget(obj)` on the instance): a
plain-attribute read consults the instance dictionary before the class. -/
def evalFGetInst (w : World) (f : FGet) (inst : PyInstance) : Except PyErr Val :=
  match f with
  | .constF s => .ok (.str s)
  | .concatVar p a =>
      match dictGet inst.idict a with
      | some (.plain s) => .ok (.str (p ++ s))
      | some _ => .error (.typeError "unsupported operand")
      | none =>
          match getPlainAttr w inst.cls a with
          | .ok s => .ok (.str (p ++ s))
          | .error e => .error e
  | .raiseNotImpl => .error .notImplementedError

/-- The body of `classproperty.__get__`: wrap `self.fget` in `classmethod`
and call the bound result, so the function receives `instance_type` — the
class the access went through — as `cls`.  When `fget` is `None` the call
of the bound `None` raises a `TypeError` (the `fget is None` check of the
base class is not reached, `classproperty` overrides `__get__` whole). -/
def cpropCall (w : World) (f : Option FGet) (cid : Nat) : Except PyErr Val :=
  match f with
  | none => .error (.typeError noneNotCallableMsg)
  | some g => evalFGet w g cid

/-- Attribute read on a class object (`type.__getattribute__`): find the
binding along the MRO; a `classproperty` descriptor is invoked with the
accessed class, a bare `GetOnlyProperty` returns itself (its `__get__`
returns `self` when `obj is None`), plain values are returned as they
are. -/
def classGetAttr (w : World) (cid : Nat) (attr : String) : Except PyErr Val :=
  match lookupAttr w cid attr with
  | some (.plain s) => .ok (.str s)
  | some (.nameset s) => .ok (.names s)
  | some (.getonly f n) => .ok (.descr (.getonly f n))
  | some (.cprop f _) => cpropCall w f cid
  | none => .error (.attributeError attr)

/-- Attribute read on an instance (`object.__getattribute__`): a data
descriptor found along the runtime class's MRO takes precedence over the
instance dictionary and is invoked with the runtime class
(`classproperty`) or the instance (`GetOnlyProperty`, whose `__get__`
raises `AttributeError` when no getter is bound); otherwise the instance
dictionary is consulted, then the class-level plain value. -/
def instanceGetAttr (w : World) (inst : PyInstance) (attr : String) :
    Except PyErr Val :=
  match lookupAttr w inst.cls attr with
  | some (.cprop f _) => cpropCall w f inst.cls
  | some (.getonly f n) =>
      match f with
      | none => .error (.attributeError (noGetterMsg n))
      | some g => evalFGetInst w g inst
  | other =>
      match dictGet inst.idict attr with
      | some (.plain s) => .ok (.str s)
      | some (.nameset s) => .ok (.names s)
      | some a => .ok (.descr a)
      | none =>
          match other with
          | some (.plain s) => .ok (.str s)
          | some (.nameset s) => .ok (.names s)
          | _ => .error (.attributeError attr)

/-- Attribute assignment on an instance (`object.__setattr__`): a data
descriptor found along the runtime class's MRO has its `__set__` called —
both descriptors of this repository unconditionally raise
`AttributeError` naming the attribute — otherwise the instance dictionary
is updated. -/
def instanceSetAttr (w : World) (inst : PyInstance) (attr : String)
    (v : Attr) : Except PyErr PyInstance :=
  match lookupAttr w inst.cls attr with
  | some (.cprop _ n) => .error (.attributeError (cantSetMsg n))
  | some (.getonly _ n) => .error (.attributeError (cantSetMsg n))
  | _ => .ok { inst with idict := dictSet inst.idict attr v }

/-- Attribute deletion on an instance (`object.__delattr__`): a data
descriptor's `__delete__` is called — both descriptors unconditionally
raise `AttributeError` naming the attribute — otherwise the instance
dictionary entry is removed (an absent entry raises `AttributeError`). -/
def instanceDelAttr (w : World) (inst : PyInstance) (attr : String) :
    Except PyErr PyInstance :=
  match lookupAttr w inst.cls attr with
  | some (.cprop _ n) => .error (.attributeError (cantDelMsg n))
  | some (.getonly _ n) => .error (.attributeError (cantDelMsg n))
  | _ =>
      match dictGet inst.idict attr with
      | some _ => .ok { inst with idict := dictDel inst.idict attr }
      | none => .error (.attributeError attr)

/-- Whether a dictionary value is a `classproperty` instance (the
`isinstance(attrval, classproperty)` test of the metaclass; a bare
`GetOnlyProperty` is not one). -/
def isCProp : Attr → Bool
  | .cprop _ _ => true
  | _ => false

/-- The `__set_name__` step of class creation: each descriptor declared in
the namespace has the attribute name it is bound to written into its
`_name`. -/
def setName (n : String) : Attr → Attr
  | .cprop f _ => .cprop f n
  | .getonly f _ => .getonly f n
  | a => a

/-- Apply `__set_name__` to every binding of a declared namespace. -/
def applySetName (attrs : List (String × Attr)) : List (String × Attr) :=
  attrs.map fun p => (p.1, setName p.1 p.2)

/-- Whether a declared namespace binds a name (`attrname in attrs.keys()`). -/
def hasKey (attrs : List (String × Attr)) (n : String) : Bool :=
  (dictGet attrs n).isSome

/-- The first set comprehension of the metaclass's `__new__`: the names of
the class's own declared namespace bound to a `classproperty`. -/
def ownCPropNames (attrs : List (String × Attr)) : List String :=
  (attrs.filter fun p => isCProp p.2).map (·.1)

/-- The per-base comprehension of the metaclass's `__new__`: names bound to
a `classproperty` in one base class's own dictionary, skipping names the
child's declared namespace already binds. -/
def inheritedCPropNames (attrs : List (String × Attr))
    (bdict : List (String × Attr)) : List String :=
  (bdict.filter fun p => isCProp p.2 && !hasKey attrs p.1).map (·.1)

/-- The protected-name set `attrs_that_should_not_be_edited_after_definition`
computed by `MetaClassContainingClassProperties.__new__`: the own names
unioned with each base's non-overridden names (a list standing for the
set; only membership matters). -/
def protectedNames (attrs : List (String × Attr))
    (basesDicts : List (List (String × Attr))) : List String :=
  ownCPropNames attrs ++ basesDicts.foldr
    (fun bd acc => inheritedCPropNames attrs bd ++ acc) []

/-- The dictionaries of a list of base classes, in order. -/
def basesDicts (w : World) (bases : List Nat) : List (List (String × Attr)) :=
  bases.foldr
    (fun b acc =>
      match findClass w b with
      | some c => c.dict :: acc
      | none => acc)
    []

/-- The method-resolution order of a new class: its own id first, then the
bases' stored linearizations in order (for single inheritance this is the
host language's C3 linearization; duplicates are harmless to lookup,
which takes the first hit). -/
def newMro (w : World) (newId : Nat) (bases : List Nat) : List Nat :=
  newId :: bases.foldr
    (fun b acc =>
      match findClass w b with
      | some c => c.mro ++ acc
      | none => acc)
    []

/-- Class creation under `MetaClassContainingClassProperties.__new__`:
compute the protected-name set from the declared namespace and the bases'
own dictionaries, create the class (`__set_name__` running on the
declared descriptors), then store the set on the new class as
`_cantchange` (the store goes through `__setattr__`, whose check exempts
the name `_cantchange`).  Returns the grown heap and the new class id. -/
def classNew (w : World) (attrs : List (String × Attr)) (bases : List Nat) :
    World × Nat :=
  let prot := protectedNames attrs (basesDicts w bases)
  let c : ClassObj :=
    { bases := bases
      mro := newMro w w.length bases
      dict := dictSet (applySetName attrs) "_cantchange" (.nameset prot)
      meta := true }
  (w ++ [c], w.length)

/-- Class creation without the enforcing metaclass (plain `type.__new__`):
no protected-name set is computed or stored. -/
def plainClassNew (w : World) (attrs : List (String × Attr))
    (bases : List Nat) : World × Nat :=
  let c : ClassObj :=
    { bases := bases
      mro := newMro w w.length bases
      dict := applySetName attrs
      meta := false }
  (w ++ [c], w.length)

/-- The unguarded assignment `super().__setattr__(attr, value)`: update the
class object's own dictionary. -/
def plainSetClassAttr (w : World) (cid : Nat) (c : ClassObj) (attr : String)
    (v : Attr) : Except PyErr World :=
  .ok (w.set cid { c with dict := dictSet c.dict attr v })

/-- Attribute assignment on a class object.  Without the enforcing
metaclass this is plain `type.__setattr__`.  With it,
`MetaClassContainingClassProperties.__setattr__` runs: the name
`_cantchange` is always exempt from the check; otherwise, when the class
has a `_cantchange` registry (`hasattr`) and the name is a member,
`ValueError` is raised naming the attribute; otherwise the assignment
proceeds.  (A `_cantchange` binding that is not a registry set does not
arise through this interface; the embedding reports it as a type
error.) -/
def setClassAttr (w : World) (cid : Nat) (attr : String) (v : Attr) :
    Except PyErr World :=
  match findClass w cid with
  | none => .error (.typeError "no such class")
  | some c =>
      if c.meta then
        if attr = "_cantchange" then plainSetClassAttr w cid c attr v
        else
          match lookupAttr w cid "_cantchange" with
          | some (.nameset s) =>
              if attr ∈ s then .error (.valueError (cannotSetMsg attr))
              else plainSetClassAttr w cid c attr v
          | some _ => .error (.typeError "unsupported operand")
          | none => plainSetClassAttr w cid c attr v
      else plainSetClassAttr w cid c attr v

/-- Exception semantics of a class-level assignment: on a raise the heap
stays what it was at the point of the raise; since the metaclass's check
precedes `super().__setattr__`, the pre-assignment heap survives. -/
def trySetClassAttr (w : World) (cid : Nat) (attr : String) (v : Attr) :
    World × Option PyErr :=
  match setClassAttr w cid attr v with
  | .ok w2 => (w2, none)
  | .error e => (w, some e)

/-! ### Dictionary and heap lemmas -/

theorem dictGet_dictSet_self (d : List (String × Attr)) (k : String) (v : Attr) :
    dictGet (dictSet d k v) k = some v := by
  induction d with
  | nil => simp [dictSet, dictGet]
  | cons p rest ih =>
      obtain ⟨k2, v2⟩ := p
      by_cases h : k2 = k
      · simp [dictSet, h, dictGet]
      · simp [dictSet, h, dictGet, ih]

theorem dictGet_dictSet_ne (d : List (String × Attr)) (k k2 : String) (v : Attr)
    (h : k2 ≠ k) : dictGet (dictSet d k v) k2 = dictGet d k2 := by
  induction d with
  | nil => simp [dictSet, dictGet, Ne.symm h]
  | cons p rest ih =>
      obtain ⟨k3, v3⟩ := p
      by_cases h3 : k3 = k
      · subst h3
        simp [dictSet, dictGet, Ne.symm h]
      · simp [dictSet, h3, dictGet, ih]

theorem findClass_set_self (w : World) (cid : Nat) (c c2 : ClassObj)
    (h : findClass w cid = some c) : findClass (w.set cid c2) cid = some c2 := by
  have hlt := (List.getElem?_eq_some.mp h).1
  simp [findClass, List.getElem?_set_self hlt]

theorem findClass_append_self (w : World) (c : ClassObj) :
    findClass (w ++ [c]) w.length = some c := by
  simp [findClass, List.getElem?_concat_length]

theorem lookupAttr_head (w : World) (cid : Nat) (c : ClassObj) (t : List Nat)
    (attr : String) (v : Attr) (hc : findClass w cid = some c)
    (hm : c.mro = cid :: t) (hd : dictGet c.dict attr = some v) :
    lookupAttr w cid attr = some v := by
  simp [lookupAttr, hc, hm, List.findSome?_cons, hd]

/-! ### Membership in the protected-name set -/

theorem mem_ownCPropNames (attrs : List (String × Attr)) (n : String) :
    n ∈ ownCPropNames attrs ↔ ∃ v, (n, v) ∈ attrs ∧ isCProp v = true := by
  simp only [ownCPropNames, List.mem_map, List.mem_filter]
  constructor
  · rintro ⟨⟨a, b⟩, ⟨hmem, hcp⟩, rfl⟩
    exact ⟨b, hmem, hcp⟩
  · rintro ⟨v, hmem, hcp⟩
    exact ⟨⟨n, v⟩, ⟨hmem, hcp⟩, rfl⟩

theorem mem_inheritedCPropNames (attrs bd : List (String × Attr)) (n : String) :
    n ∈ inheritedCPropNames attrs bd ↔
      ∃ v, (n, v) ∈ bd ∧ isCProp v = true ∧ hasKey attrs n = false := by
  simp only [inheritedCPropNames, List.mem_map, List.mem_filter,
    Bool.and_eq_true, Bool.not_eq_true']
  constructor
  · rintro ⟨⟨a, b⟩, ⟨hmem, hcp, hk⟩, rfl⟩
    exact ⟨b, hmem, hcp, hk⟩
  · rintro ⟨v, hmem, hcp, hk⟩
    exact ⟨⟨n, v⟩, ⟨hmem, hcp, hk⟩, rfl⟩

theorem mem_foldr_inherited (attrs : List (String × Attr))
    (l : List (List (String × Attr))) (n : String) :
    n ∈ l.foldr (fun bd acc => inheritedCPropNames attrs bd ++ acc) [] ↔
      ∃ bd ∈ l, n ∈ inheritedCPropNames attrs bd := by
  induction l with
  | nil => simp
  | cons bd rest ih => simp [List.mem_append, ih]

theorem mem_protectedNames (attrs : List (String × Attr))
    (bds : List (List (String × Attr))) (n : String) :
    n ∈ protectedNames attrs bds ↔
      (∃ v, (n, v) ∈ attrs ∧ isCProp v = true) ∨
      ∃ bd ∈ bds, ∃ v, (n, v) ∈ bd ∧ isCProp v = true ∧ hasKey attrs n = false := by
  simp [protectedNames, List.mem_append, mem_ownCPropNames, mem_foldr_inherited,
    mem_inheritedCPropNames]

theorem dict_mem_basesDicts (w : World) (bases : List Nat) (bid : Nat)
    (b : ClassObj) (hb : bid ∈ bases) (hf : findClass w bid = some b) :
    b.dict ∈ basesDicts w bases := by
  induction bases with
  | nil => cases hb
  | cons x rest ih =>
      have hrest : basesDicts w (x :: rest) =
          match findClass w x with
          | some c => c.dict :: basesDicts w rest
          | none => basesDicts w rest := rfl
      rcases List.mem_cons.mp hb with h | h
      · subst h
        rw [hrest, hf]
        exact List.mem_cons_self _ _
      · rw [hrest]
        cases hx : findClass w x
        · exact ih h
        · exact List.mem_cons_of_mem _ (ih h)

/-! ### Concrete scenarios, mirroring the repository's tests -/

/-- The getter of `ClassWithStaticProperty.static_property`. -/
def fgSP : FGet := .concatVar "static_property_" "class_variable"

/-- The declared namespace of `ClassWithStaticProperty` (and of its
metaclass twin), as the class body binds it. -/
def attrsA : List (String × Attr) :=
  [("class_variable", .plain "extra"), ("static_property", .cprop (some fgSP) "")]

/-- The class `ClassWithStaticProperty`, created without the metaclass. -/
def wA : World := (plainClassNew [] attrsA []).1

/-- The class object of `wA`, written out. -/
def cA : ClassObj :=
  { bases := []
    mro := [0]
    dict := [("class_variable", .plain "extra"),
             ("static_property", .cprop (some fgSP) "static_property")]
    meta := false }

/-- The class `ClassWithStaticPropertyAndMetaclass`. -/
def wB : World := (classNew [] attrsA []).1

/-- The class object of `wB`, written out: the registry holds the one
`classproperty` name. -/
def cB : ClassObj :=
  { bases := []
    mro := [0]
    dict := [("class_variable", .plain "extra"),
             ("static_property", .cprop (some fgSP) "static_property"),
             ("_cantchange", .nameset ["static_property"])]
    meta := true }

/-- Getter of `BaseClass.static_property_not_overloaded`. -/
def fgNO : FGet := .concatVar "static_property_not_overloaded_" "class_variable"

/-- Getter of `BaseClass.static_property_overloaded`. -/
def fgO : FGet := .concatVar "static_property_overloaded_" "class_variable"

/-- Getter of `ChildClass.static_property_overloaded`. -/
def fgO2 : FGet := .concatVar "static_property_overloaded2_" "class_variable"

/-- The declared namespace of `BaseClass`. -/
def baseAttrs : List (String × Attr) :=
  [("class_variable", .plain "extra"),
   ("static_property_not_overloaded", .cprop (some fgNO) ""),
   ("static_property_overloaded", .cprop (some fgO) "")]

/-- The declared namespace of `ChildClass`. -/
def childAttrs : List (String × Attr) :=
  [("class_variable", .plain "extra2"),
   ("static_property_overloaded", .cprop (some fgO2) "")]

/-- The heap holding `BaseClass` (id 0). -/
def wBase : World := (classNew [] baseAttrs []).1

/-- The class object of `BaseClass`, written out. -/
def cBase : ClassObj :=
  { bases := []
    mro := [0]
    dict := [("class_variable", .plain "extra"),
             ("static_property_not_overloaded",
              .cprop (some fgNO) "static_property_not_overloaded"),
             ("static_property_overloaded",
              .cprop (some fgO) "static_property_overloaded"),
             ("_cantchange",
              .nameset ["static_property_not_overloaded",
                        "static_property_overloaded"])]
    meta := true }

/-- The heap holding `BaseClass` (id 0) and `ChildClass` (id 1). -/
def wBoth : World := (classNew wBase childAttrs [0]).1

/-- A class whose body declares `_cantchange` itself as a `classproperty`:
its computed registry is `{"_cantchange"}`. -/
def wPath : World :=
  (classNew [] [("_cantchange", .cprop (some (.constF "x")) "")] []).1

/-- A class declaring a bare `GetOnlyProperty` attribute `p` with a bound
getter. -/
def wG : World :=
  (plainClassNew []
    [("class_variable", .plain "v"), ("p", .getonly (some (.constF "got")) "")]
    []).1

/-- A class declaring a bare `GetOnlyProperty` attribute `p` whose getter
was never set. -/
def wG2 : World := (plainClassNew [] [("p", .getonly none "")] []).1

/-- A class declaring a `classproperty` attribute `p` whose getter was
never set. -/
def wC7 : World := (plainClassNew [] [("p", .cprop none "")] []).1

/-! ### The claims -/

/-- C2.  For every instance of a class declaring a `classproperty`
attribute (the name having been bound into the descriptor by
`__set_name__`), assigning to that attribute through the instance fails
with an `AttributeError` naming the attribute, and deleting it through
the instance fails with an `AttributeError` naming the attribute;
neither ever succeeds.  The statement quantifies over arbitrary heaps:
`instanceSetAttr` and `instanceDelAttr` never consult the metaclass
flag, so the enforcing metaclass's presence or absence is irrelevant. -/
theorem instance_write_and_delete_always_fail (w : World) (inst : PyInstance)
    (attr : String) (f : Option FGet) (v : Attr)
    (h : lookupAttr w inst.cls attr = some (.cprop f attr)) :
    instanceSetAttr w inst attr v = .error (.attributeError (cantSetMsg attr)) ∧
    instanceDelAttr w inst attr = .error (.attributeError (cantDelMsg attr)) := by
  constructor
  · simp [instanceSetAttr, h]
  · simp [instanceDelAttr, h]

/-- Witness for C2 at the metaclass test class. -/
theorem instance_write_and_delete_always_fail_witness :
    instanceSetAttr wB { cls := 0, idict := [] } "static_property"
        (Attr.plain "x") =
      .error (.attributeError (cantSetMsg "static_property")) ∧
    instanceDelAttr wB { cls := 0, idict := [] } "static_property" =
      .error (.attributeError (cantDelMsg "static_property")) :=
  instance_write_and_delete_always_fail wB { cls := 0, idict := [] }
    "static_property" (some fgSP) (Attr.plain "x") rfl

/-- C3.  Reading a `classproperty` attribute through an instance invokes
the computation function with the instance's runtime class — the class
id stored in the instance — whatever class along the MRO the descriptor
was found in, so a subclass that does not override the attribute gets
the value computed against its own class-level state. -/
theorem instance_read_late_bound (w : World) (inst : PyInstance)
    (attr nm : String) (f : FGet)
    (h : lookupAttr w inst.cls attr = some (.cprop (some f) nm)) :
    instanceGetAttr w inst attr = evalFGet w f inst.cls := by
  simp [instanceGetAttr, h, cpropCall]

/-- Witness for C3: an instance of `ChildClass` reads the inherited,
non-overridden attribute and the getter runs against `ChildClass`
(`class_variable = "extra2"`), not against `BaseClass` where the
descriptor is defined. -/
theorem instance_read_late_bound_witness :
    instanceGetAttr wBoth { cls := 1, idict := [] }
        "static_property_not_overloaded" =
      evalFGet wBoth fgNO 1 ∧
    evalFGet wBoth fgNO 1 =
      .ok (.str "static_property_not_overloaded_extra2") :=
  ⟨instance_read_late_bound wBoth { cls := 1, idict := [] }
      "static_property_not_overloaded" "static_property_not_overloaded"
      fgNO rfl,
   rfl⟩

/-- C6, counterexample.  Reading a bare `GetOnlyProperty` attribute
through the class does not invoke the computation function: its
`__get__` returns `self` when the access is not through an instance, so
the read yields the descriptor object, not the getter's value. -/
theorem base_construct_class_read_returns_descriptor :
    classGetAttr wG 0 "p" =
      .ok (.descr (.getonly (some (.constF "got")) "p")) ∧
    evalFGet wG (.constF "got") 0 = .ok (.str "got") ∧
    Val.descr (.getonly (some (.constF "got")) "p") ≠ Val.str "got" :=
  ⟨rfl, rfl, by decide⟩

/-- C6, amended.  Reading through the class invokes the computation
function with the accessed class only for the decorator
(`classproperty`); for the read-only base construct
(`GetOnlyProperty`) the class-level read returns the descriptor object
itself. -/
theorem class_read_decorator_vs_base (w : World) (cid : Nat)
    (attr nm : String) (f : FGet) (g : Option FGet) :
    (lookupAttr w cid attr = some (.cprop (some f) nm) →
      classGetAttr w cid attr = evalFGet w f cid) ∧
    (lookupAttr w cid attr = some (.getonly g nm) →
      classGetAttr w cid attr = .ok (.descr (.getonly g nm))) := by
  constructor
  · intro h
    simp [classGetAttr, h, cpropCall]
  · intro h
    simp [classGetAttr, h]

/-- Demonstration of C6 as amended at the test classes. -/
theorem class_read_decorator_vs_base_witness :
    classGetAttr wB 0 "static_property" = evalFGet wB fgSP 0 ∧
    classGetAttr wG 0 "p" =
      .ok (.descr (.getonly (some (.constF "got")) "p")) :=
  ⟨(class_read_decorator_vs_base wB 0 "static_property" "static_property"
      fgSP none).1 rfl,
   (class_read_decorator_vs_base wG 0 "p" "p" (.constF "x")
      (some (.constF "got"))).2 rfl⟩

/-- C7, counterexample.  A `classproperty` whose getter was never set does
not fail reads with the `AttributeError` "no getter" message: its
overriding `__get__` never reaches the base class's `fget is None`
check; it wraps `None` in `classmethod` and calls the bound result,
which raises a `TypeError`. -/
theorem decorator_missing_getter_raises_type_error :
    instanceGetAttr wC7 { cls := 0, idict := [] } "p" =
      .error (.typeError noneNotCallableMsg) ∧
    PyErr.typeError noneNotCallableMsg ≠
      PyErr.attributeError (noGetterMsg "p") :=
  ⟨rfl, by decide⟩

/-- C7, amended.  Only the read-only base construct (`GetOnlyProperty`)
fails an instance read with the `AttributeError` stating no getter is
defined and naming the attribute; the decorator (`classproperty`) with
no getter fails reads — through an instance or through the class — with
a `TypeError` from calling the wrapped `None`. -/
theorem missing_getter_read_behavior (w : World) (inst : PyInstance)
    (cid : Nat) (attr nm : String) :
    (lookupAttr w inst.cls attr = some (.getonly none nm) →
      instanceGetAttr w inst attr =
        .error (.attributeError (noGetterMsg nm))) ∧
    (lookupAttr w inst.cls attr = some (.cprop none nm) →
      instanceGetAttr w inst attr = .error (.typeError noneNotCallableMsg)) ∧
    (lookupAttr w cid attr = some (.cprop none nm) →
      classGetAttr w cid attr = .error (.typeError noneNotCallableMsg)) := by
  refine ⟨fun h => ?_, fun h => ?_, fun h => ?_⟩
  · simp [instanceGetAttr, h]
  · simp [instanceGetAttr, h, cpropCall]
  · simp [classGetAttr, h, cpropCall]

/-- Demonstration of C7 as amended at the getter-less test classes. -/
theorem missing_getter_read_behavior_witness :
    instanceGetAttr wG2 { cls := 0, idict := [] } "p" =
      .error (.attributeError (noGetterMsg "p")) ∧
    instanceGetAttr wC7 { cls := 0, idict := [] } "p" =
      .error (.typeError noneNotCallableMsg) :=
  ⟨(missing_getter_read_behavior wG2 { cls := 0, idict := [] } 0 "p" "p").1
      rfl,
   (missing_getter_read_behavior wC7 { cls := 0, idict := [] } 0 "p" "p").2.1
      rfl⟩

/-- Shape of every successful class-level assignment: the class was found
and its own dictionary was updated at the assigned name (every branch of
`__setattr__` that does not raise ends in `super().__setattr__`). -/
theorem setClassAttr_ok_shape (w w2 : World) (cid : Nat) (attr : String)
    (v : Attr) (h : setClassAttr w cid attr v = .ok w2) :
    ∃ c, findClass w cid = some c ∧
      w2 = w.set cid { c with dict := dictSet c.dict attr v } := by
  simp only [setClassAttr] at h
  split at h
  · cases h
  · rename_i c hc
    refine ⟨c, hc, ?_⟩
    split at h
    · split at h
      · simpa [plainSetClassAttr] using h.symm
      · split at h
        · split at h
          · cases h
          · simpa [plainSetClassAttr] using h.symm
        · cases h
        · simpa [plainSetClassAttr] using h.symm
    · simpa [plainSetClassAttr] using h.symm

/-- C1, counterexample.  A class body may declare `_cantchange` itself as a
`classproperty`; the registry computed for the class is then
`{"_cantchange"}`, yet a later assignment to that name on the class is
performed normally, because the guard in `__setattr__` exempts the name
`_cantchange` unconditionally — not only for the initial store during
creation. -/
theorem metaclass_registry_name_assignment_allowed :
    lookupAttr wPath 0 "_cantchange" = some (.nameset ["_cantchange"]) ∧
    "_cantchange" ∈ ["_cantchange"] ∧
    setClassAttr wPath 0 "_cantchange" (Attr.plain "v") =
      .ok [{ bases := [], mro := [0],
             dict := [("_cantchange", Attr.plain "v")], meta := true }] :=
  ⟨rfl, by decide, rfl⟩

/-- C1, amended.  For a class governed by the enforcing metaclass whose
registry lookup yields the set `s`: a later assignment to a name in `s`
other than `_cantchange` itself fails with a `ValueError` naming the
attribute; an assignment to a name outside `s` is performed normally
(`super().__setattr__`); and an assignment to the name `_cantchange` is
always performed normally, the initial store of the registry during
creation being the intended instance of that exemption. -/
theorem metaclass_class_assignment_guard (w : World) (cid : Nat)
    (c : ClassObj) (s : List String) (hc : findClass w cid = some c)
    (hm : c.meta = true)
    (hl : lookupAttr w cid "_cantchange" = some (.nameset s)) :
    (∀ attr v, attr ∈ s → attr ≠ "_cantchange" →
      setClassAttr w cid attr v = .error (.valueError (cannotSetMsg attr))) ∧
    (∀ attr v, attr ∉ s →
      setClassAttr w cid attr v = plainSetClassAttr w cid c attr v) ∧
    (∀ v, setClassAttr w cid "_cantchange" v =
      plainSetClassAttr w cid c "_cantchange" v) := by
  refine ⟨fun attr v hmem hne => ?_, fun attr v hnm => ?_, fun v => ?_⟩
  · simp [setClassAttr, hc, hm, hne, hl, hmem]
  · by_cases he : attr = "_cantchange"
    · subst he
      simp [setClassAttr, hc, hm]
    · simp [setClassAttr, hc, hm, he, hl, hnm]
  · simp [setClassAttr, hc, hm]

/-- Witness for C1 as amended, at the metaclass test class: the protected
name is rejected with the `ValueError`, a non-protected name is assigned
normally. -/
theorem metaclass_class_assignment_guard_witness :
    setClassAttr wB 0 "static_property" (Attr.plain "different") =
      .error (.valueError (cannotSetMsg "static_property")) ∧
    setClassAttr wB 0 "class_variable" (Attr.plain "extranew") =
      plainSetClassAttr wB 0 cB "class_variable" (Attr.plain "extranew") := by
  have h := metaclass_class_assignment_guard wB 0 cB ["static_property"]
    rfl rfl rfl
  exact ⟨h.1 "static_property" (Attr.plain "different") (by decide) (by decide),
         h.2.1 "class_variable" (Attr.plain "extranew") (by decide)⟩

/-- C4.  Membership in the protected-name set computed at class creation is
exactly: declared in the class's own namespace with a `classproperty`
value, or declared with a `classproperty` value in a direct base's own
dictionary while the name is absent from the class's own namespace; and
the created class stores that set in its own dictionary under
`_cantchange`. -/
theorem protected_set_union_characterization (w : World)
    (attrs : List (String × Attr)) (bases : List Nat) (n : String) :
    (n ∈ protectedNames attrs (basesDicts w bases) ↔
      (∃ v, (n, v) ∈ attrs ∧ isCProp v = true) ∨
      ∃ bd ∈ basesDicts w bases, ∃ v,
        (n, v) ∈ bd ∧ isCProp v = true ∧ hasKey attrs n = false) ∧
    ∃ c, findClass (classNew w attrs bases).1 (classNew w attrs bases).2 =
        some c ∧
      dictGet c.dict "_cantchange" =
        some (.nameset (protectedNames attrs (basesDicts w bases))) := by
  constructor
  · exact mem_protectedNames attrs (basesDicts w bases) n
  · refine ⟨{ bases := bases,
              mro := newMro w w.length bases,
              dict := dictSet (applySetName attrs) "_cantchange"
                (.nameset (protectedNames attrs (basesDicts w bases))),
              meta := true }, ?_, ?_⟩
    · exact findClass_append_self w _
    · exact dictGet_dictSet_self _ _ _

/-- C5, counterexample.  `ChildClass` does not re-declare
`static_property_not_overloaded`, yet the name is in the child's own
stored registry (the base-walking step of `__new__` put it there), and
assigning it directly on the child class raises the `ValueError` — the
claim says the name is not added and the assignment does not raise. -/
theorem child_assignment_of_inherited_name_raises :
    lookupAttr wBoth 1 "_cantchange" =
      some (.nameset ["static_property_overloaded",
                      "static_property_not_overloaded"]) ∧
    setClassAttr wBoth 1 "static_property_not_overloaded"
        (Attr.plain "different") =
      .error (.valueError (cannotSetMsg "static_property_not_overloaded")) :=
  ⟨rfl, rfl⟩

/-- C5, amended.  A `classproperty` name of a direct base's own dictionary
that the child's namespace does not re-declare IS added to the child's
own protected set by the inheritance step of `__new__`, so (for any such
name other than `_cantchange` itself) assigning it directly on the
child class also raises the `ValueError`. -/
theorem inherited_name_is_protected_on_child (w : World)
    (cattrs : List (String × Attr)) (bases : List Nat) (bid : Nat)
    (bobj : ClassObj) (n nm : String) (f : Option FGet) (v : Attr)
    (hbid : bid ∈ bases) (hb : findClass w bid = some bobj)
    (hn : (n, Attr.cprop f nm) ∈ bobj.dict)
    (hnk : hasKey cattrs n = false) (hnc : n ≠ "_cantchange") :
    n ∈ protectedNames cattrs (basesDicts w bases) ∧
    setClassAttr (classNew w cattrs bases).1 (classNew w cattrs bases).2 n v =
      .error (.valueError (cannotSetMsg n)) := by
  have hmem : n ∈ protectedNames cattrs (basesDicts w bases) :=
    (mem_protectedNames _ _ _).mpr
      (Or.inr ⟨bobj.dict, dict_mem_basesDicts w bases bid bobj hbid hb,
        Attr.cprop f nm, hn, rfl, hnk⟩)
  refine ⟨hmem, ?_⟩
  have hfc : findClass (classNew w cattrs bases).1
      (classNew w cattrs bases).2 = some
      { bases := bases, mro := newMro w w.length bases,
        dict := dictSet (applySetName cattrs) "_cantchange"
          (.nameset (protectedNames cattrs (basesDicts w bases))),
        meta := true } := findClass_append_self w _
  have hlook : lookupAttr (classNew w cattrs bases).1
      (classNew w cattrs bases).2 "_cantchange" =
      some (.nameset (protectedNames cattrs (basesDicts w bases))) :=
    lookupAttr_head _ _ _ _ _ _ hfc rfl (dictGet_dictSet_self _ _ _)
  simp [setClassAttr, hfc, hnc, hlook, hmem]

/-- Witness for C5 as amended, at the `BaseClass`/`ChildClass` pair. -/
theorem inherited_name_is_protected_on_child_witness :
    "static_property_not_overloaded" ∈
      protectedNames childAttrs (basesDicts wBase [0]) ∧
    setClassAttr wBoth 1 "static_property_not_overloaded"
        (Attr.plain "diff") =
      .error (.valueError (cannotSetMsg "static_property_not_overloaded")) :=
  inherited_name_is_protected_on_child wBase childAttrs [0] 0 cBase
    "static_property_not_overloaded" "static_property_not_overloaded"
    (some fgNO) (Attr.plain "diff") (by decide) rfl (by decide) rfl (by decide)

/-- C8.  Without the enforcing metaclass, reassigning a declared
`classproperty` name directly on the class always succeeds, replacing
the descriptor binding in the class's own dictionary, and the new plain
value is then read back through the class and through every instance
whose own dictionary does not bind the name (pre-existing instances
cannot bind it: instance writes through the descriptor always
failed). -/
theorem plain_class_reassignment_succeeds (w : World) (cid : Nat)
    (c : ClassObj) (attr nm : String) (f : Option FGet) (v : String)
    (t : List Nat) (hc : findClass w cid = some c) (hm : c.meta = false)
    (hmro : c.mro = cid :: t)
    (_hd : dictGet c.dict attr = some (.cprop f nm)) :
    setClassAttr w cid attr (.plain v) =
      .ok (w.set cid { c with dict := dictSet c.dict attr (.plain v) }) ∧
    classGetAttr (w.set cid { c with dict := dictSet c.dict attr (.plain v) })
        cid attr = .ok (.str v) ∧
    ∀ inst : PyInstance, inst.cls = cid →
      dictGet inst.idict attr = none →
      instanceGetAttr
          (w.set cid { c with dict := dictSet c.dict attr (.plain v) })
          inst attr = .ok (.str v) := by
  have hfc2 : findClass
      (w.set cid { c with dict := dictSet c.dict attr (.plain v) }) cid =
      some { c with dict := dictSet c.dict attr (.plain v) } :=
    findClass_set_self w cid c _ hc
  have hlook : lookupAttr
      (w.set cid { c with dict := dictSet c.dict attr (.plain v) }) cid attr =
      some (.plain v) := by
    refine lookupAttr_head _ _ _ t _ _ hfc2 hmro (dictGet_dictSet_self _ _ _)
  refine ⟨?_, ?_, ?_⟩
  · simp [setClassAttr, hc, hm, plainSetClassAttr]
  · simp [classGetAttr, hlook]
  · intro inst hic hnone
    simp [instanceGetAttr, hic, hlook, hnone]

/-- Witness for C8 at `ClassWithStaticProperty`: the reassignment of the
test succeeds and is observed through the class and a fresh instance. -/
theorem plain_class_reassignment_succeeds_witness :
    setClassAttr wA 0 "static_property" (Attr.plain "replaced") =
      .ok (wA.set 0
        { cA with
          dict := dictSet cA.dict "static_property" (Attr.plain "replaced") }) ∧
    classGetAttr
        (wA.set 0
          { cA with
            dict := dictSet cA.dict "static_property" (Attr.plain "replaced") })
        0 "static_property" = .ok (.str "replaced") ∧
    instanceGetAttr
        (wA.set 0
          { cA with
            dict := dictSet cA.dict "static_property" (Attr.plain "replaced") })
        { cls := 0, idict := [] } "static_property" = .ok (.str "replaced") := by
  have h := plain_class_reassignment_succeeds wA 0 cA "static_property"
    "static_property" (some fgSP) "replaced" [] rfl rfl rfl rfl
  exact ⟨h.1, h.2.1, h.2.2 { cls := 0, idict := [] } rfl rfl⟩

/-- C9, counterexample.  The registry of the metaclass test class can be
replaced after creation: the `__setattr__` guard exempts the name
`_cantchange` permanently, so a later direct assignment to it succeeds
and changes the stored registry. -/
theorem registry_mutable_after_creation :
    lookupAttr wB 0 "_cantchange" = some (.nameset ["static_property"]) ∧
    setClassAttr wB 0 "_cantchange" (Attr.nameset []) =
      .ok (wB.set 0
        { cB with dict := dictSet cB.dict "_cantchange" (Attr.nameset []) }) ∧
    lookupAttr
        (wB.set 0
          { cB with dict := dictSet cB.dict "_cantchange" (Attr.nameset []) })
        0 "_cantchange" = some (.nameset []) ∧
    (["static_property"] : List String) ≠ [] :=
  ⟨rfl, rfl, rfl, by decide⟩

/-- C9, amended.  The registry is computed once at creation and stored on
the class object; every successful class-level assignment to any name
other than `_cantchange` leaves the stored registry unchanged; but a
direct assignment to the name `_cantchange` itself on a
metaclass-governed class is exempt from the guard, succeeds, and
replaces the stored registry. -/
theorem registry_mutation_characterization (w : World) (cid : Nat) :
    (∀ attr v w2, attr ≠ "_cantchange" →
      setClassAttr w cid attr v = .ok w2 →
      (findClass w2 cid).map (fun c2 => dictGet c2.dict "_cantchange") =
        (findClass w cid).map (fun c2 => dictGet c2.dict "_cantchange")) ∧
    (∀ c s, findClass w cid = some c → c.meta = true →
      setClassAttr w cid "_cantchange" (.nameset s) =
        .ok (w.set cid
          { c with dict := dictSet c.dict "_cantchange" (.nameset s) })) := by
  constructor
  · intro attr v w2 hne h
    obtain ⟨c, hc, rfl⟩ := setClassAttr_ok_shape w w2 cid attr v h
    rw [findClass_set_self w cid c _ hc, hc]
    simp [dictGet_dictSet_ne _ _ _ _ (Ne.symm hne)]
  · intro c s hc hm
    simp [setClassAttr, hc, hm, plainSetClassAttr]

/-- Demonstration of C9 as amended at the metaclass test class. -/
theorem registry_mutation_characterization_witness :
    (findClass
        (wB.set 0
          { cB with
            dict := dictSet cB.dict "class_variable" (Attr.plain "extranew") })
        0).map (fun c2 => dictGet c2.dict "_cantchange") =
      (findClass wB 0).map (fun c2 => dictGet c2.dict "_cantchange") ∧
    setClassAttr wB 0 "_cantchange" (Attr.nameset ["x"]) =
      .ok (wB.set 0
        { cB with dict := dictSet cB.dict "_cantchange" (Attr.nameset ["x"]) }) := by
  have h := registry_mutation_characterization wB 0
  exact ⟨h.1 "class_variable" (Attr.plain "extranew") _ (by decide) rfl,
         h.2 cB ["x"] rfl rfl⟩

/-- C10.  Whenever a class-level assignment is rejected with the
`ValueError`, no updated heap is produced: under exception semantics the
heap at the raise is the pre-assignment heap (the check precedes
`super().__setattr__` in the source), so a subsequent read of the
attribute returns the same value as before the failed assignment. -/
theorem rejected_assignment_leaves_state_unchanged (w : World) (cid : Nat)
    (attr : String) (v : Attr) (m : String)
    (h : (trySetClassAttr w cid attr v).2 = some (.valueError m)) :
    (trySetClassAttr w cid attr v).1 = w ∧
    classGetAttr (trySetClassAttr w cid attr v).1 cid attr =
      classGetAttr w cid attr := by
  unfold trySetClassAttr at h ⊢
  cases hs : setClassAttr w cid attr v with
  | ok w2 =>
      rw [hs] at h
      simp at h
  | error e =>
      exact ⟨rfl, rfl⟩

/-- Witness for C10 at the metaclass test class's protected name. -/
theorem rejected_assignment_leaves_state_unchanged_witness :
    (trySetClassAttr wB 0 "static_property" (Attr.plain "d")).1 = wB ∧
    classGetAttr (trySetClassAttr wB 0 "static_property" (Attr.plain "d")).1
        0 "static_property" =
      classGetAttr wB 0 "static_property" :=
  rejected_assignment_leaves_state_unchanged wB 0 "static_property"
    (Attr.plain "d") (cannotSetMsg "static_property") rfl

end StaticClassProperty
